import Mathlib

/-!
Verification development for the Tabular Filter Engine of the
advanced_table_filtering repository.

The Python sources embedded here are:
  * src/lib/filter_engine.py  (validate_filter_operator, apply_single_filter,
    apply_multiple_filters)
  * src/lib/data_processor.py (detect_column_types, convert_to_json_format)
  * src/app.py                (_apply_filter_set_to_df, apply_column_filter,
    add_filter_condition -- the condition-update and capacity logic)

Modelling conventions:
  * A pandas cell is a `Cell`: the single null marker stands for both
    `None` and `NaN` (pandas treats them interchangeably in `dropna`,
    `isin` and comparisons); numbers are rationals (no float rounding is
    exercised by any claim); dates are encoded as `y*10000 + m*100 + d`,
    which orders like calendar dates.
  * `pd.to_datetime` string parsing is modelled by `parseDateYMD`, which
    covers the formats exercised in this development (ISO `YYYY-MM-DD`,
    compact `YYYYMMDD`, bare `YYYY`); pandas accepts more formats, and
    interprets raw numbers as epoch offsets, neither of which any
    theorem below depends on.
  * Python `float(...)` on strings is modelled by `parseDecimal`
    (optional sign, decimal digits, optional fraction part); pandas
    renders integral values without a fractional suffix in `astype(str)`
    for integer storage, which is what `pyStrCell` mirrors.
  * `str.contains(value, case=False)` compiles `str(value)` as a regex;
    the model treats the pattern literally, which coincides with pandas
    for patterns free of regex metacharacters (all inputs exercised
    here).
  * pandas raises for elementwise comparisons between incompatible
    kinds; the model returns `false` for such cells. No claim below
    exercises a mixed-kind elementwise comparison.
-/

namespace TableFilter

/-- One pandas cell value: the shared null marker, a string, a number, or a
date (encoded `y*10000 + m*100 + d`). -/
inductive Cell where
  | null : Cell
  | str : String → Cell
  | num : ℚ → Cell
  | date : Nat → Cell
deriving DecidableEq, Repr

/-- A filter value as received by `apply_single_filter`: a scalar, a Python
list (multi-select equality), or a 2-tuple (range operators). Python tuples
of other lengths are not representable; `apply_single_filter` treats them
like every other non-2-tuple value. -/
inductive FilterValue where
  | scalar : Cell → FilterValue
  | vlist : List Cell → FilterValue
  | vtuple : Cell → Cell → FilterValue
deriving DecidableEq, Repr

/-- `str(cell)` / `astype(str)`: the string form of a cell. Integral numbers
render as integer literals (integer storage); the null marker renders as
`None` (object storage). -/
def pyStrCell : Cell → String
  | Cell.null => "None"
  | Cell.str s => s
  | Cell.num q =>
      if q.den = 1 then
        (if q.num < 0 then "-" ++ toString q.num.natAbs else toString q.num.natAbs)
      else toString q
  | Cell.date n => toString n

/-- `str(value)` for a filter value; only the scalar case is exercised by the
text operators in any flow covered here. -/
def pyStrValue : FilterValue → String
  | FilterValue.scalar c => pyStrCell c
  | FilterValue.vlist l => "[" ++ String.intercalate ", " (l.map pyStrCell) ++ "]"
  | FilterValue.vtuple a b => "(" ++ pyStrCell a ++ ", " ++ pyStrCell b ++ ")"

/-- pandas elementwise `col == value`: null cells (and null targets) never
compare equal; otherwise same-kind exact equality. -/
def cellEqB : Cell → Cell → Bool
  | Cell.str a, Cell.str b => a == b
  | Cell.num a, Cell.num b => a == b
  | Cell.date a, Cell.date b => a == b
  | _, _ => false

/-- pandas `Series.isin` membership test for one cell against the list of
values: null matches null (pandas treats the NA markers as interchangeable
members), otherwise same-kind exact equality. -/
def isinEqB : Cell → Cell → Bool
  | Cell.null, Cell.null => true
  | Cell.str a, Cell.str b => a == b
  | Cell.num a, Cell.num b => a == b
  | Cell.date a, Cell.date b => a == b
  | _, _ => false

/-- `col.isin(values)` at one cell. -/
def isinMatch (c : Cell) (vs : List Cell) : Bool :=
  vs.any (isinEqB c)

/-- pandas elementwise `col < value`: same-kind comparison, null or
mixed-kind cells never match. -/
def cellLtB : Cell → Cell → Bool
  | Cell.str a, Cell.str b => decide (a < b)
  | Cell.num a, Cell.num b => decide (a < b)
  | Cell.date a, Cell.date b => decide (a < b)
  | _, _ => false

/-- pandas elementwise `col > value`. -/
def cellGtB (c v : Cell) : Bool := cellLtB v c

/-- pandas elementwise `col >= value`. -/
def cellGeB : Cell → Cell → Bool
  | Cell.str a, Cell.str b => decide (b ≤ a)
  | Cell.num a, Cell.num b => decide (b ≤ a)
  | Cell.date a, Cell.date b => decide (b ≤ a)
  | _, _ => false

/-- pandas elementwise `col <= value`. -/
def cellLeB (c v : Cell) : Bool := cellGeB v c

/-- Python scalar `a > b` as used by the `between` endpoint check
`value[0] > value[1]`: comparisons across kinds raise `TypeError`. -/
def pyGtCheck : Cell → Cell → Except String Bool
  | Cell.num a, Cell.num b => Except.ok (decide (b < a))
  | Cell.str a, Cell.str b => Except.ok (decide (b < a))
  | Cell.date a, Cell.date b => Except.ok (decide (b < a))
  | _, _ => Except.error "TypeError: unsupported comparison"

/-- Is `pat` a contiguous sublist of `l` (Python `pat in l` on strings)? -/
def hasInfix : List Char → List Char → Bool
  | l, pat =>
    match l with
    | [] => pat.isEmpty
    | _ :: t => pat.isPrefixOf l || hasInfix t pat

/-- `str.contains(pat, case=False)` at one string: case-insensitive
substring test (pattern treated literally, see header note). Lowercasing is
spelled out per character so the kernel can evaluate it. -/
def pyContainsCI (hay pat : String) : Bool :=
  hasInfix (hay.toList.map Char.toLower) (pat.toList.map Char.toLower)

/-- Python `str.upper()` (ASCII range, which covers the AND/OR tokens it is
applied to in the source). -/
def pyUpper (s : String) : String :=
  String.mk (s.toList.map Char.toUpper)

/-- Python `str.startswith`: case-sensitive prefix test. -/
def pyStartsWith (hay pat : String) : Bool :=
  pat.toList.isPrefixOf hay.toList

/-- Python `str.endswith`: case-sensitive suffix test. -/
def pyEndsWith (hay pat : String) : Bool :=
  pat.toList.reverse.isPrefixOf hay.toList.reverse

/-- The table: ordered column names and ordered rows of cells (rows are
positional, matching the unique `RangeIndex` produced by
`pd.DataFrame.from_dict`). -/
structure DataFrame where
  columns : List String
  rows : List (List Cell)
deriving DecidableEq, Repr

/-- Position of a column name, `none` when the column is absent
(`column_name not in df.columns`). -/
def colIndex (df : DataFrame) (cn : String) : Option Nat :=
  df.columns.findIdx? (fun c => c == cn)

/-- The cell of a row at a column position. -/
def rowCell (r : List Cell) (i : Nat) : Cell :=
  r.getD i Cell.null

/-- `df[mask]`: keep the rows whose mask entry is true. -/
def filterByMask {α : Type} : List α → List Bool → List α
  | [], _ => []
  | _, [] => []
  | x :: xs, b :: bs => if b then x :: filterByMask xs bs else filterByMask xs bs

/-- pandas `&` on aligned boolean masks. -/
def andMask (a b : List Bool) : List Bool := List.zipWith and a b

/-- pandas `|` on aligned boolean masks. -/
def orMask (a b : List Bool) : List Bool := List.zipWith or a b

/-- `validate_filter_operator` from src/lib/filter_engine.py. -/
def validate_filter_operator (operator data_type : String) : Bool :=
  let text_operators := ["equals", "contains", "starts_with", "ends_with"]
  let numeric_operators := ["equals", "greater_than", "less_than", "between"]
  let date_operators := ["equals", "before", "after", "between"]
  if data_type == "text" then text_operators.contains operator
  else if data_type == "numeric" then numeric_operators.contains operator
  else if data_type == "date" then date_operators.contains operator
  else false

/-- Elementwise comparison of the column against a scalar filter value; the
code writes `col > value` (and friends), which pandas only accepts for
scalar-like values -- non-scalars raise. -/
def scalarCmp (colv : List Cell) (value : FilterValue) (cmp : Cell → Cell → Bool) :
    Except String (List Bool) :=
  match value with
  | FilterValue.scalar v => Except.ok (colv.map (fun c => cmp c v))
  | _ => Except.error "TypeError: unsupported operand"

/-- The `between` error message raised at src/lib/filter_engine.py line 74
(value interpolation as in the source f-string). -/
def betweenErrMsg (a b : Cell) : String :=
  "Invalid between filter: min value (" ++ pyStrCell a ++
    ") must be less than or equal to max value (" ++ pyStrCell b ++ ")"

/-- The boolean mask computed by `apply_single_filter`
(src/lib/filter_engine.py lines 47-86): for a missing column or an unknown
operator the function returns `df` itself, which is the all-true mask. -/
def singleFilterMask (df : DataFrame) (column_name operator : String)
    (value : FilterValue) (data_type : String) : Except String (List Bool) :=
  match colIndex df column_name with
  | none => Except.ok (df.rows.map (fun _ => true))
  | some i =>
    let colv := df.rows.map (fun r => rowCell r i)
    if operator == "equals" then
      match value with
      | FilterValue.vlist vs => Except.ok (colv.map (fun c => isinMatch c vs))
      | FilterValue.scalar v => Except.ok (colv.map (fun c => cellEqB c v))
      | FilterValue.vtuple _ _ =>
          -- pandas elementwise `==` against a tuple broadcasts by length and
          -- raises on mismatch; modelled as an error, unexercised by claims
          Except.error "ValueError: lengths must match"
    else if operator == "contains" then
      Except.ok (colv.map (fun c => pyContainsCI (pyStrCell c) (pyStrValue value)))
    else if operator == "starts_with" then
      Except.ok (colv.map (fun c => pyStartsWith (pyStrCell c) (pyStrValue value)))
    else if operator == "ends_with" then
      Except.ok (colv.map (fun c => pyEndsWith (pyStrCell c) (pyStrValue value)))
    else if operator == "greater_than" then
      scalarCmp colv value cellGtB
    else if operator == "less_than" then
      scalarCmp colv value cellLtB
    else if operator == "between" then
      match value with
      | FilterValue.vtuple a b =>
          match pyGtCheck a b with
          | Except.error e => Except.error e
          | Except.ok g =>
              if g then Except.error (betweenErrMsg a b)
              else Except.ok (colv.map (fun c => cellGeB c a && cellLeB c b))
      | _ => Except.ok (colv.map (fun _ => false))
    else if operator == "before" then
      scalarCmp colv value cellLtB
    else if operator == "after" then
      scalarCmp colv value cellGtB
    else
      Except.ok (df.rows.map (fun _ => true))

/-- `apply_single_filter` from src/lib/filter_engine.py: the filtered
DataFrame `df[mask]`. -/
def apply_single_filter (df : DataFrame) (column_name operator : String)
    (value : FilterValue) (data_type : String) : Except String DataFrame :=
  match singleFilterMask df column_name operator value data_type with
  | Except.error e => Except.error e
  | Except.ok m => Except.ok { columns := df.columns, rows := filterByMask df.rows m }

/-- One entry of the `filter_conditions` list handed to
`apply_multiple_filters`: a Python dict whose keys may be absent. -/
structure FilterCondition where
  column_name : Option String := none
  operator : Option String := none
  value : FilterValue := FilterValue.scalar Cell.null
  data_type : Option String := none
deriving DecidableEq, Repr

/-- The per-condition masks collected by the loop in
`apply_multiple_filters` (src/lib/filter_engine.py lines 166-177): a
condition with a falsy `column_name` or a missing `operator` is skipped;
each retained mask is recovered from the filtered index, which equals the
condition mask because the index is unique. -/
def condMasks (df : DataFrame) : List FilterCondition → Except String (List (List Bool))
  | [] => Except.ok []
  | c :: rest =>
    match c.column_name, c.operator with
    | some col, some op =>
        if col == "" then condMasks df rest
        else
          match singleFilterMask df col op c.value (c.data_type.getD "text") with
          | Except.error e => Except.error e
          | Except.ok m =>
              match condMasks df rest with
              | Except.error e => Except.error e
              | Except.ok ms => Except.ok (m :: ms)
    | _, _ => condMasks df rest

/-- `apply_multiple_filters` from src/lib/filter_engine.py lines 137-194. -/
def apply_multiple_filters (df : DataFrame) (filter_conditions : List FilterCondition)
    (logic_operator : String) : Except String DataFrame :=
  if filter_conditions.isEmpty then Except.ok df
  else if filter_conditions.length > 10 then
    Except.error "Maximum 10 filter conditions allowed"
  else
    match condMasks df filter_conditions with
    | Except.error e => Except.error e
    | Except.ok [] => Except.ok df
    | Except.ok (m :: ms) =>
        let combined :=
          if pyUpper logic_operator == "OR" then ms.foldl orMask m
          else ms.foldl andMask m
        Except.ok { columns := df.columns, rows := filterByMask df.rows combined }

/-! ## Value parsing helpers (Python `float`, pandas `to_datetime`) -/

/-- Numeric value of a digit list (helper for `parseDecimal`). -/
def digitsVal (cs : List Char) : Nat :=
  cs.foldl (fun a c => a * 10 + (c.toNat - 48)) 0

/-- Python `float(s)` on a string: optional sign, then decimal digits with
an optional fraction part (the forms exercised here; Python additionally
accepts exponents, whitespace and inf/nan spellings). -/
def parseDecimal (s : String) : Option ℚ :=
  let cs0 := s.toList
  let neg : Bool := cs0.head? = some '-'
  let cs := if cs0.head? = some '-' ∨ cs0.head? = some '+' then cs0.tail else cs0
  let ip := cs.takeWhile (fun c => c ≠ '.')
  let rest := cs.dropWhile (fun c => c ≠ '.')
  match rest with
  | [] =>
      if ip ≠ [] ∧ ip.all Char.isDigit then
        some (((if neg then -(digitsVal ip : Int) else (digitsVal ip : Int)) : Int) : ℚ)
      else none
  | _ :: fp =>
      if (ip ≠ [] ∨ fp ≠ []) ∧ ip.all Char.isDigit ∧ fp.all Char.isDigit then
        let n : Int := digitsVal ip * 10 ^ fp.length + digitsVal fp
        some (mkRat (if neg then -n else n) (10 ^ fp.length))
      else none

/-- Python `float(cell)`: numbers pass through, parseable strings convert,
everything else raises (modelled as `none`). -/
def pyFloat : Cell → Option ℚ
  | Cell.num q => some q
  | Cell.str s => parseDecimal s
  | _ => none

/-- Read `n` decimal digits from the front; returns the value and the rest. -/
def takeDigits (n : Nat) (cs : List Char) : Option (Nat × List Char) :=
  let ds := cs.take n
  if ds.length = n ∧ ds.all Char.isDigit then some (digitsVal ds, cs.drop n)
  else none

/-- `pd.to_datetime(s)` on a string, modelled for the formats exercised in
this development: `YYYY-MM-DD`, compact `YYYYMMDD`, and a bare year
`YYYY` (pandas parses a 4-digit string as January 1 of that year). Returns
the `y*10000 + m*100 + d` encoding. -/
def parseDateYMD (s : String) : Option Nat :=
  let cs := s.toList
  match takeDigits 4 cs with
  | none => none
  | some (y, rest) =>
    match rest with
    | [] => some (y * 10000 + 100 + 1)
    | '-' :: rest2 =>
        match takeDigits 2 rest2 with
        | none => none
        | some (m, rest3) =>
          match rest3 with
          | '-' :: rest4 =>
              match takeDigits 2 rest4 with
              | some (d, []) =>
                  if 1 ≤ m ∧ m ≤ 12 ∧ 1 ≤ d ∧ d ≤ 31 then
                    some (y * 10000 + m * 100 + d)
                  else none
              | _ => none
          | _ => none
    | _ =>
        match takeDigits 4 rest with
        | some (md, []) =>
            let m := md / 100
            let d := md % 100
            if 1 ≤ m ∧ m ≤ 12 ∧ 1 ≤ d ∧ d ≤ 31 then
              some (y * 10000 + m * 100 + d)
            else none
        | _ => none

/-- Does the string parse as a date under the modelled parser? -/
def parsesAsDate (s : String) : Bool :=
  (parseDateYMD s).isSome

/-- `pd.to_datetime(cell)` for one cell: timestamps pass through, strings
parse; raw numbers (epoch offsets in pandas) and nulls are outside the
modelled scope and fail. -/
def pyToDatetime : Cell → Option Cell
  | Cell.date n => some (Cell.date n)
  | Cell.str s => (parseDateYMD s).map Cell.date
  | _ => none

/-! ## data_processor.py -/

/-- pandas column storage kinds distinguished by `detect_column_types`. -/
inductive Dtype where
  | dt64 : Dtype
  | float64 : Dtype
  | int64 : Dtype
  | obj : Dtype
deriving DecidableEq, Repr

/-- One pandas column: its storage dtype and its cells. -/
structure PColumn where
  dtype : Dtype
  values : List Cell
deriving DecidableEq, Repr

/-- `pd.api.types.is_datetime64_any_dtype`. -/
def is_datetime64_any_dtype (d : Dtype) : Bool := d == Dtype.dt64

/-- `pd.api.types.is_numeric_dtype`. -/
def is_numeric_dtype (d : Dtype) : Bool := d == Dtype.float64 || d == Dtype.int64

/-- `detect_column_types` from src/lib/data_processor.py lines 9-56, for one
column. The `is_numeric_dtype` test inside the object branch is kept exactly
as in the source (it can never succeed there, since the branch requires the
dtype to be object). -/
def detect_column_type (col : PColumn) : String :=
  let col_data := col.values.filter (fun c => c ≠ Cell.null)
  if col_data.length = 0 then "text"
  else if is_datetime64_any_dtype col.dtype then "date"
  else if col.dtype == Dtype.obj then
    let sample_values := (col_data.take 10).map pyStrCell
    if sample_values.all parsesAsDate then "date"
    else if is_numeric_dtype col.dtype then "numeric"
    else "text"
  else if is_numeric_dtype col.dtype then "numeric"
  else "text"

/-- A serialized row: a Python dict as an ordered association list. -/
abbrev Record := List (String × Cell)

/-- `convert_to_json_format` from src/lib/data_processor.py lines 89-103:
`df.replace({nan: None}).to_dict(records)`. Every column key appears in
every record; null cells appear as the explicit null marker (the model
already identifies `NaN` with the null marker, so the `replace` step is the
identity here). -/
def convert_to_json_format (df : DataFrame) : List Record :=
  df.rows.map (fun r => df.columns.zip r)

/-- Column order produced by `pd.DataFrame.from_dict(records)`: keys in
order of first appearance. -/
def recordColumns (records : List Record) : List String :=
  records.foldl (fun acc r => acc ++ (r.map Prod.fst).filter (fun k => !(acc.contains k))) []

/-- `pd.DataFrame.from_dict(records)`: rows aligned on the union of keys,
missing keys becoming the null marker (`NaN`). -/
def from_dict (records : List Record) : DataFrame :=
  let cols := recordColumns records
  { columns := cols,
    rows := records.map (fun r => cols.map (fun c => (r.lookup c).getD Cell.null)) }

/-! ## app.py: filter set state and the callbacks touched by the claims -/

/-- A filter condition as stored by the callbacks (every key present,
matching the dict literal built in app.py). -/
structure StoredCondition where
  column_name : String
  operator : String
  value : FilterValue
  data_type : String
  is_active : Bool
deriving DecidableEq, Repr

/-- The filter-set store: `{conditions, logic_operator}` (the transient
`result_count` display field is not part of the model). -/
structure FilterSet where
  conditions : List StoredCondition
  logic_operator : String
deriving DecidableEq, Repr

/-- The condition-update step shared by `apply_column_filter`
(src/app.py lines 714-718) and `add_filter_condition` (lines 995-1000):
drop any condition on the same column, then append the new one. -/
def updateConditions (conditions : List StoredCondition) (c : StoredCondition) :
    List StoredCondition :=
  (conditions.filter (fun x => !(x.column_name == c.column_name))) ++ [c]

/-- The condition-update and capacity logic of `add_filter_condition`
(src/app.py lines 995-1016): on overflow the newly appended condition is
popped and the previous filter set is returned unchanged. -/
def add_filter_condition (fs : FilterSet) (c : StoredCondition) : FilterSet :=
  let conditions := updateConditions fs.conditions c
  if conditions.length > 10 then fs
  else { conditions := conditions, logic_operator := fs.logic_operator }

/-- Coercion applied per condition inside `_apply_filter_set_to_df`
(src/app.py lines 450-460, numeric branch): each entry through `float`,
keeping the raw value when any conversion raises (`except: pass`). -/
def coerceNumericValue (v : FilterValue) : FilterValue :=
  match v with
  | FilterValue.vlist l =>
      match l.mapM pyFloat with
      | some qs => FilterValue.vlist (qs.map Cell.num)
      | none => v
  | FilterValue.vtuple a b =>
      match pyFloat a, pyFloat b with
      | some x, some y => FilterValue.vtuple (Cell.num x) (Cell.num y)
      | _, _ => v
  | FilterValue.scalar c =>
      match pyFloat c with
      | some q => FilterValue.scalar (Cell.num q)
      | none => v

/-- Date branch of the same coercion (src/app.py lines 461-470). -/
def coerceDateValue (v : FilterValue) : FilterValue :=
  match v with
  | FilterValue.vlist l =>
      match l.mapM pyToDatetime with
      | some ds => FilterValue.vlist ds
      | none => v
  | FilterValue.vtuple a b =>
      match pyToDatetime a, pyToDatetime b with
      | some x, some y => FilterValue.vtuple x y
      | _, _ => v
  | FilterValue.scalar c =>
      match pyToDatetime c with
      | some d => FilterValue.scalar d
      | none => v

/-- Lookup in the `column_types` mapping (a Python dict `.get`). -/
def lookupType (column_types : List (String × String)) (col : String) : Option String :=
  column_types.lookup col

/-- Conversion of one stored condition into the dict passed to
`apply_multiple_filters`, from the loop of `_apply_filter_set_to_df`
(src/app.py lines 444-473): conditions with a falsy column or operator are
skipped; `data_type` falls back to the snapshot type when falsy. -/
def storedToFilterCondition (column_types : List (String × String))
    (c : StoredCondition) : Option FilterCondition :=
  if c.column_name == "" ∨ c.operator == "" then none
  else
    let dtype := if c.data_type == "" then (lookupType column_types c.column_name).getD "text"
                 else c.data_type
    let val := if dtype == "numeric" then coerceNumericValue c.value
               else if dtype == "date" then coerceDateValue c.value
               else c.value
    some { column_name := some c.column_name, operator := some c.operator,
           value := val, data_type := some dtype }

/-- `_apply_filter_set_to_df` from src/app.py lines 433-478. -/
def apply_filter_set_to_df (df : DataFrame) (fs : FilterSet)
    (column_types : List (String × String)) : Except String DataFrame :=
  if fs.conditions.isEmpty then Except.ok df
  else
    let filter_conditions := fs.conditions.filterMap (storedToFilterCondition column_types)
    if filter_conditions.isEmpty then Except.ok df
    else apply_multiple_filters df filter_conditions fs.logic_operator

/-- Typed-value validation performed by `apply_column_filter` before the
condition is built (src/app.py lines 659-695): the converted value itself is
discarded by the source (the stored condition keeps the raw value and
`_apply_filter_set_to_df` re-coerces), so only success or failure matters.
In the numeric tuple branch a null endpoint silently becomes `0.0`; in the
date tuple branch a null endpoint becomes the current clock time (a value
the model leaves abstract as day 0). -/
def typedCoercionOk (data_type : String) (v : FilterValue) : Bool :=
  if data_type == "numeric" then
    match v with
    | FilterValue.vlist l => ((l.filter (fun c => c ≠ Cell.null)).mapM pyFloat).isSome
    | FilterValue.vtuple a b =>
        (a = Cell.null ∨ (pyFloat a).isSome) ∧ (b = Cell.null ∨ (pyFloat b).isSome)
    | FilterValue.scalar c => c = Cell.null ∨ (pyFloat c).isSome
  else if data_type == "date" then
    match v with
    | FilterValue.vlist l => ((l.filter (fun c => c ≠ Cell.null)).mapM pyToDatetime).isSome
    | FilterValue.vtuple a b =>
        (a = Cell.null ∨ (pyToDatetime a).isSome) ∧ (b = Cell.null ∨ (pyToDatetime b).isSome)
    | FilterValue.scalar c => c = Cell.null ∨ (pyToDatetime c).isSome
  else true

/-- Outcome of the `apply_column_filter` callback: the filter-set store
value it returns, the freshly rendered rows on success, and the status
message on failure. -/
structure ApplyResult where
  filter_set : FilterSet
  applied : Option DataFrame
  errorMsg : Option String
deriving DecidableEq, Repr

/-- The decision core of `apply_column_filter` (src/app.py lines 591-776),
entered after the no-data and empty-input early returns with the resolved
`actual_value`. Faithful points: the operator/type check and the value
coercion check return the incoming set untouched, but the condition update
at lines 714-718 mutates the stored set in place BEFORE evaluation, so the
exception handler at lines 768-776 hands the mutated set back to the
store. -/
def apply_column_filter (df : DataFrame) (column_types : List (String × String))
    (fs0 : FilterSet) (column_name operator : String) (actual_value : FilterValue)
    (logic_operator : Option String) : ApplyResult :=
  let data_type := (lookupType column_types column_name).getD "text"
  if !(validate_filter_operator operator data_type) then
    { filter_set := fs0, applied := none,
      errorMsg := some ("Invalid operator " ++ operator ++ " for " ++ data_type ++ " column.") }
  else if !(typedCoercionOk data_type actual_value) then
    { filter_set := fs0, applied := none,
      errorMsg := some (if data_type == "numeric" then "Invalid numeric value."
                        else "Invalid date format.") }
  else
    let logic_effective :=
      match logic_operator with
      | some l => if l == "AND" ∨ l == "OR" then l
                  else if fs0.logic_operator == "AND" ∨ fs0.logic_operator == "OR" then
                    fs0.logic_operator
                  else "AND"
      | none => if fs0.logic_operator == "AND" ∨ fs0.logic_operator == "OR" then
                  fs0.logic_operator
                else "AND"
    let filter_condition : StoredCondition :=
      { column_name := column_name, operator := operator, value := actual_value,
        data_type := data_type, is_active := true }
    let fs1 : FilterSet :=
      { conditions := updateConditions fs0.conditions filter_condition,
        logic_operator := logic_effective }
    match apply_filter_set_to_df df fs1 column_types with
    | Except.ok filtered_df =>
        { filter_set := fs1, applied := some filtered_df, errorMsg := none }
    | Except.error e =>
        { filter_set := fs1, applied := none,
          errorMsg := some ("Error applying filter: " ++ e) }

deriving instance DecidableEq for Except

/-! ## Spec-side predicates (formalising the words of the specification,
for comparison with the source-derived definitions above) -/

/-- Spec wording: case-insensitive substring test. -/
def SpecContainsCI (hay pat : String) : Prop :=
  ∃ pre suf, hay.toList.map Char.toLower = pre ++ pat.toList.map Char.toLower ++ suf

/-- Spec wording: prefix test on the string form (stated case-sensitively,
as the code performs it). -/
def SpecStartsWith (hay pat : String) : Prop :=
  ∃ suf, hay.toList = pat.toList ++ suf

/-- Spec wording: suffix test on the string form (stated case-sensitively,
as the code performs it). -/
def SpecEndsWith (hay pat : String) : Prop :=
  ∃ pre, hay.toList = pre ++ pat.toList

/-- Spec wording for the claimed type-inference algorithm (claim C9):
all-null infers text; date storage infers date; otherwise date-parse the
first up-to-10 non-null samples; otherwise numeric if all values are
numeric; otherwise text. -/
def specInferType (col : PColumn) : String :=
  let nonNull := col.values.filter (fun c => c ≠ Cell.null)
  if nonNull.length = 0 then "text"
  else if is_datetime64_any_dtype col.dtype then "date"
  else if ((nonNull.take 10).map pyStrCell).all parsesAsDate then "date"
  else if nonNull.all (fun c => match c with | Cell.num _ => true | _ => false) then "numeric"
  else "text"

/-- The amended type-inference description (claim C9): the date-sampling
step applies only to string-typed (object storage) columns, which otherwise
infer text; numerically stored columns infer numeric without a date
attempt. -/
def specInferAmended (col : PColumn) : String :=
  let nonNull := col.values.filter (fun c => c ≠ Cell.null)
  if nonNull.length = 0 then "text"
  else if is_datetime64_any_dtype col.dtype then "date"
  else if col.dtype == Dtype.obj then
    (if ((nonNull.take 10).map pyStrCell).all parsesAsDate then "date" else "text")
  else if is_numeric_dtype col.dtype then "numeric"
  else "text"

/-- At most one condition per distinct column, quantified over the columns
that occur in the set (decidable, hence usable in concrete witnesses). -/
def atMostOnePerColumn (cs : List StoredCondition) : Prop :=
  ∀ d ∈ cs.map (fun x => x.column_name),
    (cs.filter (fun x => x.column_name == d)).length ≤ 1

instance (cs : List StoredCondition) : Decidable (atMostOnePerColumn cs) := by
  unfold atMostOnePerColumn
  infer_instance

/-- Pointwise implication of boolean masks (out-of-range reads as false,
matching `List.getD`). -/
def maskLe (m1 m2 : List Bool) : Prop :=
  ∀ i : Nat, m1.getD i false = true → m2.getD i false = true

/-! ## Concrete fixtures: the 5-row table of the specification scenarios
(decimal amounts are written as explicit reduced fractions so that the
kernel can evaluate them: 1000.5 = 2001/2, 1500.75 = 6003/4,
2500.5 = 5001/2) -/

/-- 1000.5 as a rational. -/
def q1000p5 : ℚ := Rat.mk' 2001 2 (by norm_num) (by norm_num)

/-- 1500.75 as a rational. -/
def q1500p75 : ℚ := Rat.mk' 6003 4 (by norm_num) (by norm_num)

/-- 2500.5 as a rational. -/
def q2500p5 : ℚ := Rat.mk' 5001 2 (by norm_num) (by norm_num)

/-- Alice(25, 1000.5, Active, Tokyo). -/
def rowAlice : List Cell :=
  [Cell.str "Alice", Cell.num 25, Cell.num q1000p5, Cell.str "Active", Cell.str "Tokyo"]

/-- Bob(30, 2000.0, Inactive, Osaka). -/
def rowBob : List Cell :=
  [Cell.str "Bob", Cell.num 30, Cell.num 2000, Cell.str "Inactive", Cell.str "Osaka"]

/-- Charlie(35, 1500.75, Active, Tokyo). -/
def rowCharlie : List Cell :=
  [Cell.str "Charlie", Cell.num 35, Cell.num q1500p75, Cell.str "Active", Cell.str "Tokyo"]

/-- David(28, 3000.0, Active, Kyoto). -/
def rowDavid : List Cell :=
  [Cell.str "David", Cell.num 28, Cell.num 3000, Cell.str "Active", Cell.str "Kyoto"]

/-- Eve(32, 2500.5, Inactive, Osaka). -/
def rowEve : List Cell :=
  [Cell.str "Eve", Cell.num 32, Cell.num q2500p5, Cell.str "Inactive", Cell.str "Osaka"]

/-- The 5-row Name/Age/Amount/Status/City table of the spec scenarios. -/
def df5 : DataFrame :=
  { columns := ["Name", "Age", "Amount", "Status", "City"],
    rows := [rowAlice, rowBob, rowCharlie, rowDavid, rowEve] }

/-- The column-type map of the 5-row table. -/
def ct5 : List (String × String) :=
  [("Name", "text"), ("Age", "numeric"), ("Amount", "numeric"),
   ("Status", "text"), ("City", "text")]

/-- The empty filter set that every session starts from. -/
def emptyFS : FilterSet := { conditions := [], logic_operator := "AND" }

/-- The min > max `between` condition of the C1 failing input, as the
callback stores it (raw string endpoints, numeric declared type). -/
def badBetweenCond : StoredCondition :=
  { column_name := "Amount", operator := "between",
    value := FilterValue.vtuple (Cell.str "2500") (Cell.str "1500"),
    data_type := "numeric", is_active := true }

/-- A simple equality condition on column i (for capacity fixtures). -/
def numberedCond (i : Nat) : StoredCondition :=
  { column_name := "c" ++ toString i, operator := "equals",
    value := FilterValue.scalar (Cell.num i), data_type := "numeric", is_active := true }

/-- A filter set already holding 10 conditions on 10 distinct columns. -/
def fullFS : FilterSet :=
  { conditions := (List.range 10).map numberedCond, logic_operator := "AND" }

/-- An 11-entry condition list (capacity refusal fixture). -/
def elevenConds : List FilterCondition :=
  (List.range 11).map (fun i =>
    { column_name := some ("c" ++ toString i), operator := some "equals",
      value := FilterValue.scalar (Cell.num i), data_type := some "numeric" })

/-- Status = Active (text equals) as a filter-conditions entry. -/
def condStatusActive : FilterCondition :=
  { column_name := some "Status", operator := some "equals",
    value := FilterValue.scalar (Cell.str "Active"), data_type := some "text" }

/-- City = Tokyo (text equals) as a filter-conditions entry. -/
def condCityTokyo : FilterCondition :=
  { column_name := some "City", operator := some "equals",
    value := FilterValue.scalar (Cell.str "Tokyo"), data_type := some "text" }

/-- A single-column table holding one null cell. -/
def dfNull : DataFrame := { columns := ["A"], rows := [[Cell.null]] }

/-- An int64 column of date-like numbers (C9 fixture). -/
def intDateLikeCol : PColumn :=
  { dtype := Dtype.int64, values := [Cell.num 20240101, Cell.num 20240102] }

/-! ## Helper lemmas -/

theorem filterByMask_nil_mask {α : Type} (xs : List α) : filterByMask xs [] = [] := by
  cases xs <;> rfl

theorem filterByMask_map_false {α : Type} (xs : List α) :
    filterByMask xs (xs.map (fun _ => false)) = [] := by
  induction xs with
  | nil => rfl
  | cons x t ih => simpa [filterByMask, List.map_cons] using ih

theorem filterByMask_replicate_false {α : Type} :
    ∀ (xs : List α) (n : Nat), filterByMask xs (List.replicate n false) = [] := by
  intro xs
  induction xs with
  | nil => intro n; cases n <;> rfl
  | cons x t ih =>
    intro n
    cases n with
    | zero => rfl
    | succ k => simpa [filterByMask, List.replicate] using ih k

theorem maskLe_trans {a b c : List Bool} (h1 : maskLe a b) (h2 : maskLe b c) : maskLe a c :=
  fun i hi => h2 i (h1 i hi)

theorem maskLe_and_left : ∀ (a b : List Bool), maskLe (andMask a b) a := by
  intro a
  induction a with
  | nil => intro b i h; simp [andMask] at h
  | cons x t ih =>
    intro b i h
    cases b with
    | nil => simp [andMask] at h
    | cons y u =>
      cases i with
      | zero =>
        simp only [andMask, List.zipWith_cons_cons, List.getD_cons_zero] at h ⊢
        exact (Bool.and_eq_true _ _ |>.mp h).1
      | succ j =>
        simp only [andMask, List.zipWith_cons_cons, List.getD_cons_succ] at h ⊢
        exact ih u j h

theorem maskLe_or_left : ∀ (a b : List Bool), a.length ≤ b.length → maskLe a (orMask a b) := by
  intro a
  induction a with
  | nil => intro b _ i h; simp at h
  | cons x t ih =>
    intro b hb i h
    cases b with
    | nil => simp at hb
    | cons y u =>
      cases i with
      | zero =>
        simp only [orMask, List.zipWith_cons_cons, List.getD_cons_zero] at h ⊢
        simp [h]
      | succ j =>
        simp only [orMask, List.zipWith_cons_cons, List.getD_cons_succ] at h ⊢
        exact ih u (Nat.succ_le_succ_iff.mp hb) j h

theorem foldl_andMask_maskLe : ∀ (rest : List (List Bool)) (m : List Bool),
    maskLe (rest.foldl andMask m) m := by
  intro rest
  induction rest with
  | nil => intro m i h; exact h
  | cons b t ih =>
    intro m
    exact maskLe_trans (ih (andMask m b)) (maskLe_and_left m b)

theorem orMask_length (a b : List Bool) : (orMask a b).length = min a.length b.length :=
  List.length_zipWith _ _ _

theorem foldl_orMask_maskLe : ∀ (rest : List (List Bool)) (m : List Bool),
    (∀ x ∈ rest, m.length ≤ x.length) → maskLe m (rest.foldl orMask m) := by
  intro rest
  induction rest with
  | nil => intro m _ i h; exact h
  | cons b t ih =>
    intro m hlen
    have hmb : m.length ≤ b.length := hlen b (by simp)
    have hlen2 : ∀ x ∈ t, (orMask m b).length ≤ x.length := by
      intro x hx
      have : (orMask m b).length = m.length := by
        rw [orMask_length]; exact Nat.min_eq_left hmb
      rw [this]; exact hlen x (by simp [hx])
    exact maskLe_trans (maskLe_or_left m b hmb) (ih (orMask m b) hlen2)

theorem filterByMask_length_mono {α : Type} :
    ∀ (xs : List α) (m1 m2 : List Bool), maskLe m1 m2 →
      (filterByMask xs m1).length ≤ (filterByMask xs m2).length := by
  intro xs
  induction xs with
  | nil => intro m1 m2 _; cases m1 <;> cases m2 <;> simp [filterByMask]
  | cons x t ih =>
    intro m1 m2 h
    cases m1 with
    | nil => simp [filterByMask]
    | cons b1 u1 =>
      cases m2 with
      | nil =>
        have hb1 : b1 = false := by
          cases hb : b1
          · rfl
          · have := h 0 (by simp [hb])
            simp at this
        subst hb1
        have := ih u1 [] (fun i hi => by
          have := h (i + 1) (by simpa using hi)
          simpa using this)
        simpa [filterByMask, filterByMask_nil_mask] using this
      | cons b2 u2 =>
        have htail : maskLe u1 u2 := fun i hi => by
          have := h (i + 1) (by simpa using hi)
          simpa using this
        cases hb1 : b1 with
        | true =>
          have hb2 : b2 = true := by
            have := h 0 (by simp [hb1])
            simpa using this
          subst hb2
          simpa [filterByMask] using Nat.succ_le_succ (ih u1 u2 htail)
        | false =>
          cases hb2 : b2 with
          | true =>
            simp only [filterByMask, if_true, if_false, List.length_cons]
            exact Nat.le_succ_of_le (ih u1 u2 htail)
          | false =>
            simpa [filterByMask] using ih u1 u2 htail

theorem scalarCmp_length {colv : List Cell} {v : FilterValue} {cmp : Cell → Cell → Bool}
    {m : List Bool} (h : scalarCmp colv v cmp = Except.ok m) : m.length = colv.length := by
  cases v <;> simp [scalarCmp] at h
  subst h; simp

theorem singleFilterMask_length {df : DataFrame} {cn op : String} {v : FilterValue}
    {dt : String} {m : List Bool} (h : singleFilterMask df cn op v dt = Except.ok m) :
    m.length = df.rows.length := by
  unfold singleFilterMask at h
  cases hc : colIndex df cn <;> rw [hc] at h
  · simp at h; subst h; simp
  · repeat' split at h
    all_goals
      first
        | simpa using scalarCmp_length h
        | (simp at h; subst h; simp)
        | simp at h

theorem condMasks_lengths {df : DataFrame} :
    ∀ {conds : List FilterCondition} {ms : List (List Bool)},
      condMasks df conds = Except.ok ms → ∀ m ∈ ms, m.length = df.rows.length := by
  intro conds
  induction conds with
  | nil => intro ms h m hm; simp [condMasks] at h; subst h; simp at hm
  | cons c rest ih =>
    intro ms h m hm
    obtain ⟨cnO, opO, val, dtO⟩ := c
    cases cnO with
    | none => simp only [condMasks] at h; exact ih h m hm
    | some col =>
      cases opO with
      | none => simp only [condMasks] at h; exact ih h m hm
      | some op =>
        simp only [condMasks] at h
        by_cases hce : (col == "") = true
        · rw [if_pos hce] at h; exact ih h m hm
        · rw [if_neg hce] at h
          cases hs : singleFilterMask df col op val (dtO.getD "text") with
          | error e => rw [hs] at h; simp at h
          | ok m0 =>
            rw [hs] at h
            cases hr : condMasks df rest with
            | error e => rw [hr] at h; simp at h
            | ok ms0 =>
              rw [hr] at h
              simp at h
              subst h
              rcases List.mem_cons.mp hm with hm0 | hmrest
              · subst hm0; exact singleFilterMask_length hs
              · exact ih hr m hmrest

theorem hasInfix_iff (l pat : List Char) : hasInfix l pat = true ↔ pat <:+: l := by
  induction l with
  | nil => simp [hasInfix, List.isEmpty_iff]
  | cons c t ih =>
    simp [hasInfix, List.isPrefixOf_iff_prefix, ih, List.infix_cons_iff]

theorem pyContainsCI_iff (hay pat : String) :
    pyContainsCI hay pat = true ↔ SpecContainsCI hay pat := by
  rw [pyContainsCI, hasInfix_iff]
  constructor
  · rintro ⟨s, t, hst⟩; exact ⟨s, t, hst.symm⟩
  · rintro ⟨s, t, hst⟩; exact ⟨s, t, hst.symm⟩

theorem pyStartsWith_iff (hay pat : String) :
    pyStartsWith hay pat = true ↔ SpecStartsWith hay pat := by
  rw [pyStartsWith, List.isPrefixOf_iff_prefix]
  constructor
  · rintro ⟨t, ht⟩; exact ⟨t, ht.symm⟩
  · rintro ⟨t, ht⟩; exact ⟨t, ht.symm⟩

theorem pyEndsWith_iff (hay pat : String) :
    pyEndsWith hay pat = true ↔ SpecEndsWith hay pat := by
  rw [pyEndsWith, List.isPrefixOf_iff_prefix, List.reverse_prefix]
  constructor
  · rintro ⟨s, hs⟩; exact ⟨s, hs.symm⟩
  · rintro ⟨s, hs⟩; exact ⟨s, hs.symm⟩

theorem isinEqB_eq_true_iff (c v : Cell) : isinEqB c v = true ↔ c = v := by
  cases c <;> cases v <;> simp [isinEqB]

theorem cellEqB_eq_true_iff (c v : Cell) :
    cellEqB c v = true ↔ (c = v ∧ c ≠ Cell.null) := by
  cases c <;> cases v <;> simp [cellEqB]

theorem isinMatch_iff (c : Cell) (vs : List Cell) : isinMatch c vs = true ↔ c ∈ vs := by
  simp only [isinMatch, List.any_eq_true, isinEqB_eq_true_iff]
  constructor
  · rintro ⟨x, hx, rfl⟩; exact hx
  · intro h; exact ⟨c, h, rfl⟩

/-! ## Claim theorems -/

/-- C10: for every DataFrame, existing column, and filter value that is not
a 2-tuple (a list or a scalar, as produced for instance when a tuple value
round-trips through JSON), `apply_single_filter` with operator `between`
returns the empty result (all-false mask) without raising. -/
theorem c10_between_non_tuple_empty (df : DataFrame) (cn : String) (v : FilterValue)
    (dt : String) (i : Nat) (h : colIndex df cn = some i)
    (hv : ∀ a b : Cell, v ≠ FilterValue.vtuple a b) :
    apply_single_filter df cn "between" v dt =
      Except.ok { columns := df.columns, rows := [] } := by
  cases v with
  | scalar c =>
    simp [apply_single_filter, singleFilterMask, h, List.map_map,
      filterByMask_replicate_false]
  | vlist l =>
    simp [apply_single_filter, singleFilterMask, h, List.map_map,
      filterByMask_replicate_false]
  | vtuple a b => exact absurd rfl (hv a b)

/-- C10 witness: a list-valued `between` on the concrete 5-row table keeps
no rows and raises no error. -/
theorem c10_between_non_tuple_empty_witness :
    colIndex df5 "Amount" = some 2
    ∧ apply_single_filter df5 "Amount" "between"
        (FilterValue.vlist [Cell.num 1500, Cell.num 2500]) "numeric" =
      Except.ok { columns := df5.columns, rows := [] } :=
  ⟨by decide,
   c10_between_non_tuple_empty df5 "Amount"
     (FilterValue.vlist [Cell.num 1500, Cell.num 2500]) "numeric" 2 (by decide)
     (fun a b => by simp)⟩

/-- C7: whenever evaluation succeeds for both logic operators on the same
DataFrame and conditions, the AND result retains at most as many rows as
the OR result. -/
theorem c7_and_subset_or (df : DataFrame) (conds : List FilterCondition)
    (r1 r2 : DataFrame)
    (h1 : apply_multiple_filters df conds "AND" = Except.ok r1)
    (h2 : apply_multiple_filters df conds "OR" = Except.ok r2) :
    r1.rows.length ≤ r2.rows.length := by
  unfold apply_multiple_filters at h1 h2
  by_cases he : conds.isEmpty = true
  · rw [if_pos he] at h1 h2
    simp at h1 h2
    subst h1; subst h2
    exact Nat.le_refl _
  · rw [if_neg he] at h1 h2
    by_cases hlen : conds.length > 10
    · rw [if_pos hlen] at h1; simp at h1
    · rw [if_neg hlen] at h1 h2
      cases hm : condMasks df conds with
      | error e => rw [hm] at h1; simp at h1
      | ok ms =>
        rw [hm] at h1 h2
        cases ms with
        | nil =>
          simp at h1 h2
          subst h1; subst h2
          exact Nat.le_refl _
        | cons m rest =>
          have hAND : ((pyUpper "AND" == "OR") = true) = False := by decide
          have hOR : ((pyUpper "OR" == "OR") = true) = True := by decide
          simp only [hAND, hOR, if_true, if_false] at h1 h2
          simp at h1 h2
          subst h1; subst h2
          simp only []
          have hlens := condMasks_lengths hm
          have hM : m.length = df.rows.length := hlens m (by simp)
          apply filterByMask_length_mono
          refine maskLe_trans (foldl_andMask_maskLe rest m) (foldl_orMask_maskLe rest m ?_)
          intro x hx
          rw [hM, hlens x (by simp [hx])]

/-- C7 witness: Status = Active AND City = Tokyo keeps 2 rows of the 5-row
table while the OR combination keeps 3. -/
theorem c7_and_subset_or_witness :
    apply_multiple_filters df5 [condStatusActive, condCityTokyo] "AND" =
      Except.ok { columns := df5.columns, rows := [rowAlice, rowCharlie] }
    ∧ apply_multiple_filters df5 [condStatusActive, condCityTokyo] "OR" =
      Except.ok { columns := df5.columns, rows := [rowAlice, rowCharlie, rowDavid] }
    ∧ ({ columns := df5.columns, rows := [rowAlice, rowCharlie] } : DataFrame).rows.length ≤
      ({ columns := df5.columns, rows := [rowAlice, rowCharlie, rowDavid] } : DataFrame).rows.length :=
  ⟨by decide, by decide,
   c7_and_subset_or df5 [condStatusActive, condCityTokyo] _ _ (by decide) (by decide)⟩

/-- General capacity rules (supporting development for the cap claims):
adding never grows a compliant set beyond 10 through
`add_filter_condition`; an 11th condition on a fresh column against a full
set is rejected with the previous 10 kept unchanged; and evaluation
refuses every list of more than 10 conditions for every DataFrame and
logic operator. -/
theorem capacity_rules :
    (∀ (fs : FilterSet) (c : StoredCondition), fs.conditions.length ≤ 10 →
        (add_filter_condition fs c).conditions.length ≤ 10)
    ∧ (∀ (fs : FilterSet) (c : StoredCondition), fs.conditions.length = 10 →
        (∀ x ∈ fs.conditions, x.column_name ≠ c.column_name) →
        add_filter_condition fs c = fs)
    ∧ (∀ (df : DataFrame) (conds : List FilterCondition) (logic : String),
        conds.length > 10 →
        apply_multiple_filters df conds logic =
          Except.error "Maximum 10 filter conditions allowed") := by
  refine ⟨?_, ?_, ?_⟩
  · intro fs c h
    unfold add_filter_condition
    by_cases hlen : (updateConditions fs.conditions c).length > 10
    · rw [if_pos hlen]; exact h
    · rw [if_neg hlen]; simpa using Nat.le_of_not_lt hlen
  · intro fs c h10 hnone
    have hkeep : fs.conditions.filter (fun x => !(x.column_name == c.column_name)) =
        fs.conditions := by
      apply List.filter_eq_self.mpr
      intro x hx
      simpa using hnone x hx
    unfold add_filter_condition updateConditions
    rw [hkeep]
    have : (fs.conditions ++ [c]).length > 10 := by simp [h10]
    rw [if_pos this]
  · intro df conds logic h
    have hne : conds.isEmpty = false := by
      cases conds with
      | nil => simp at h
      | cons a t => rfl
    unfold apply_multiple_filters
    rw [hne, if_pos h]
    simp

/-- Instantiation of the capacity rules: a full 10-condition set rejects a
condition on an 11th column, and an 11-entry condition list is refused by
evaluation. -/
theorem capacity_rules_inst :
    fullFS.conditions.length = 10
    ∧ (∀ x ∈ fullFS.conditions, x.column_name ≠ (numberedCond 10).column_name)
    ∧ elevenConds.length > 10
    ∧ (add_filter_condition fullFS (numberedCond 10)).conditions.length ≤ 10
    ∧ add_filter_condition fullFS (numberedCond 10) = fullFS
    ∧ apply_multiple_filters df5 elevenConds "AND" =
        Except.error "Maximum 10 filter conditions allowed" :=
  ⟨by decide, by decide, by decide,
   capacity_rules.1 fullFS (numberedCond 10) (by decide),
   capacity_rules.2.1 fullFS (numberedCond 10) (by decide) (by decide),
   capacity_rules.2.2 df5 elevenConds "AND" (by decide)⟩

/-- C4: the condition-update step used by both add and apply paths. After
adding a condition on column c, the set holds exactly one condition on c
(the new one, appended last), conditions on every other column are
unchanged, and at-most-one-per-column is preserved. -/
theorem c4_one_condition_per_column (cs : List StoredCondition) (c : StoredCondition)
    (d : String) (hd : d ≠ c.column_name) (hone : atMostOnePerColumn cs) :
    ((updateConditions cs c).filter (fun x => x.column_name == c.column_name) = [c])
    ∧ (updateConditions cs c).getLast? = some c
    ∧ ((updateConditions cs c).filter (fun x => x.column_name == d) =
        cs.filter (fun x => x.column_name == d))
    ∧ atMostOnePerColumn (updateConditions cs c) := by
  have hself : ∀ e : String,
      (updateConditions cs c).filter (fun x => x.column_name == e) =
        (cs.filter (fun x => !(x.column_name == c.column_name))).filter
          (fun x => x.column_name == e) ++
        (if (c.column_name == e) then [c] else []) := by
    intro e
    rw [updateConditions, List.filter_append]
    congr 1
    cases hc : (c.column_name == e) <;> simp [List.filter, hc]
  have hmain : (updateConditions cs c).filter
      (fun x => x.column_name == c.column_name) = [c] := by
    rw [hself c.column_name]
    have h1 : (cs.filter (fun x => !(x.column_name == c.column_name))).filter
        (fun x => x.column_name == c.column_name) = [] := by
      apply List.filter_eq_nil_iff.mpr
      intro x hx
      have := (List.mem_filter.mp hx).2
      simp at this ⊢
      exact this
    rw [h1]
    simp
  have hother : ∀ e : String, e ≠ c.column_name →
      (updateConditions cs c).filter (fun x => x.column_name == e) =
        cs.filter (fun x => x.column_name == e) := by
    intro e he
    rw [hself e]
    have hce : (c.column_name == e) = false := by
      simp
      exact fun hcc => he hcc.symm
    rw [hce]
    simp only [Bool.false_eq_true, if_false, List.append_nil]
    rw [List.filter_filter]
    apply List.filter_congr
    intro x hx
    cases hxe : (x.column_name == e) with
    | false => simp
    | true =>
      have hxeq : x.column_name = e := by simpa using hxe
      have hxc : (x.column_name == c.column_name) = false := by
        simp only [beq_eq_false_iff_ne, ne_eq]
        intro hxc2
        exact he (by rw [← hxeq, hxc2])
      simp [hxc]
  refine ⟨hmain, ?_, hother d hd, ?_⟩
  · rw [updateConditions]
    exact List.getLast?_concat _
  · intro e he
    by_cases hec : e = c.column_name
    · subst hec
      rw [hmain]
      simp
    · rw [hother e hec]
      have hecs : e ∈ cs.map (fun x => x.column_name) := by
        simp only [updateConditions, List.map_append, List.mem_append] at he
        rcases he with h | h
        · rcases List.mem_map.mp h with ⟨x, hx, hxe⟩
          exact List.mem_map.mpr ⟨x, (List.mem_filter.mp hx).1, hxe⟩
        · simp at h
          exact absurd h hec
      exact hone e hecs

/-- C4 witness: adding a condition on a fresh column to a one-condition
set. -/
theorem c4_one_condition_per_column_witness :
    "c0" ≠ (numberedCond 1).column_name
    ∧ atMostOnePerColumn [numberedCond 0]
    ∧ (((updateConditions [numberedCond 0] (numberedCond 1)).filter
          (fun x => x.column_name == (numberedCond 1).column_name) = [numberedCond 1])
      ∧ (updateConditions [numberedCond 0] (numberedCond 1)).getLast? = some (numberedCond 1)
      ∧ ((updateConditions [numberedCond 0] (numberedCond 1)).filter
          (fun x => x.column_name == "c0") =
          [numberedCond 0].filter (fun x => x.column_name == "c0"))
      ∧ atMostOnePerColumn (updateConditions [numberedCond 0] (numberedCond 1))) :=
  ⟨by decide, by decide,
   c4_one_condition_per_column [numberedCond 0] (numberedCond 1) "c0"
     (by decide) (by decide)⟩

theorem recordColumns_of_uniform {ks : List String} :
    ∀ (records : List Record) (acc : List String),
      (∀ r ∈ records, r.map Prod.fst = ks) → acc = ks →
      records.foldl (fun acc r =>
        acc ++ (r.map Prod.fst).filter (fun k => !(acc.contains k))) acc = ks := by
  intro records
  induction records with
  | nil => intro acc _ hacc; simpa using hacc
  | cons r t ih =>
    intro acc hks hacc
    have hr : r.map Prod.fst = ks := hks r (by simp)
    have hnilf : ks.filter (fun k => !(ks.contains k)) = [] := by
      apply List.filter_eq_nil_iff.mpr
      intro k hk
      simp [hk]
    have hstep : acc ++ (r.map Prod.fst).filter (fun k => !(acc.contains k)) = ks := by
      rw [hacc, hr, hnilf, List.append_nil]
    simpa using ih _ (fun x hx => hks x (by simp [hx])) hstep

theorem zip_fst_snd {α β : Type} : ∀ (l : List (α × β)),
    (l.map Prod.fst).zip (l.map Prod.snd) = l := by
  intro l
  induction l with
  | nil => rfl
  | cons p t ih => simp [ih]

theorem lookup_row_reconstruct :
    ∀ (r : Record), (r.map Prod.fst).Nodup →
      (r.map Prod.fst).map (fun c => (r.lookup c).getD Cell.null) = r.map Prod.snd := by
  intro r
  induction r with
  | nil => intro _; rfl
  | cons kv t ih =>
    intro hnd
    obtain ⟨k, v⟩ := kv
    simp only [List.map_cons, List.nodup_cons] at hnd ⊢
    congr 1
    · simp [List.lookup]
    · have htail : ∀ c ∈ t.map Prod.fst,
          ((((k, v) :: t).lookup c).getD Cell.null) = ((t.lookup c).getD Cell.null) := by
        intro c hc
        have hck : (c == k) = false := by
          simp only [beq_eq_false_iff_ne, ne_eq]
          intro hck2
          exact hnd.1 (hck2 ▸ hc)
        simp [List.lookup, hck]
      rw [List.map_congr_left htail]
      exact ih hnd.2

/-- C8: the snapshot round-trip. For every serialized row list whose
records all carry the same duplicate-free key list (the invariant of a
Table Snapshot), deserializing with `from_dict` and re-serializing with
`convert_to_json_format` reproduces the records exactly; the reconstructed
columns are the original keys; and every re-serialized record carries the
full key list explicitly (null cells included as explicit null markers,
never omitted keys). The `column_types` and `column_names` entries of the
stored snapshot pass through the state carrier verbatim and are untouched
by this pipeline. -/
theorem c8_serialize_roundtrip (records : List Record) (ks : List String)
    (hnd : ks.Nodup) (hks : ∀ r ∈ records, r.map Prod.fst = ks) :
    convert_to_json_format (from_dict records) = records
    ∧ (records ≠ [] → (from_dict records).columns = ks)
    ∧ (∀ rec ∈ convert_to_json_format (from_dict records),
        rec.map Prod.fst = (from_dict records).columns) := by
  cases hrec : records with
  | nil =>
    refine ⟨rfl, fun h => absurd rfl h, ?_⟩
    intro rec hmem
    simp [convert_to_json_format, from_dict, recordColumns] at hmem
  | cons r0 t0 =>
    rw [← hrec]
    have hcols : recordColumns records = ks := by
      rw [recordColumns, hrec]
      have h0 : r0.map Prod.fst = ks := hks r0 (by simp [hrec])
      have hstep : ([] : List String) ++
          (r0.map Prod.fst).filter (fun k => !(([] : List String).contains k)) = ks := by
        simpa using h0
      simpa using recordColumns_of_uniform t0 _
        (fun x hx => hks x (by simp [hrec, hx])) hstep
    have hrows : ∀ r ∈ records,
        ks.zip (ks.map (fun c => (r.lookup c).getD Cell.null)) = r := by
      intro r hr
      have hkr : r.map Prod.fst = ks := hks r hr
      have hndr : (r.map Prod.fst).Nodup := by rw [hkr]; exact hnd
      calc ks.zip (ks.map (fun c => (r.lookup c).getD Cell.null))
          = (r.map Prod.fst).zip ((r.map Prod.fst).map
              (fun c => (r.lookup c).getD Cell.null)) := by rw [hkr]
        _ = (r.map Prod.fst).zip (r.map Prod.snd) := by
              rw [lookup_row_reconstruct r hndr]
        _ = r := zip_fst_snd r
    have hmain : convert_to_json_format (from_dict records) = records := by
      simp only [convert_to_json_format, from_dict, hcols, List.map_map]
      calc records.map (fun r => ks.zip (ks.map (fun c => (r.lookup c).getD Cell.null)))
          = records.map id := List.map_congr_left (fun r hr => hrows r hr)
        _ = records := List.map_id records
    refine ⟨hmain, fun _ => by simp [from_dict, hcols], ?_⟩
    intro rec hmem
    rw [hmain] at hmem
    simp only [from_dict, hcols]
    exact hks rec hmem

/-- C8 witness: a two-row, two-column snapshot with explicit nulls
round-trips exactly. -/
theorem c8_serialize_roundtrip_witness :
    (["a", "b"] : List String).Nodup
    ∧ (∀ r ∈ [[("a", Cell.num 1), ("b", Cell.null)],
              [("a", Cell.null), ("b", Cell.str "x")]],
        r.map Prod.fst = ["a", "b"])
    ∧ convert_to_json_format (from_dict
        [[("a", Cell.num 1), ("b", Cell.null)],
         [("a", Cell.null), ("b", Cell.str "x")]]) =
      [[("a", Cell.num 1), ("b", Cell.null)],
       [("a", Cell.null), ("b", Cell.str "x")]] :=
  ⟨by decide, by decide,
   (c8_serialize_roundtrip
     [[("a", Cell.num 1), ("b", Cell.null)], [("a", Cell.null), ("b", Cell.str "x")]]
     ["a", "b"] (by decide) (by decide)).1⟩

/-- C2 counterexample: the claim states a case-insensitive prefix test, but
`starts_with` (no `case=False` in the source, unlike `contains`) is
case-sensitive: the City cells "Tokyo" pass the case-insensitive prefix
test for "tokyo", yet the filter keeps no rows. Likewise a null cell is not
immune: its string form "None" makes `contains` with pattern "one" keep the
row, refuting the null-cells-never-match part. -/
theorem c2_starts_with_case_sensitive_counterexample :
    apply_single_filter df5 "City" "starts_with"
        (FilterValue.scalar (Cell.str "tokyo")) "text" =
      Except.ok { columns := df5.columns, rows := [] }
    ∧ ("tokyo".toList.map Char.toLower).isPrefixOf ("Tokyo".toList.map Char.toLower) = true
    ∧ (df5.rows.map (fun r => rowCell r 4)).contains (Cell.str "Tokyo") = true
    ∧ apply_single_filter dfNull "A" "contains"
        (FilterValue.scalar (Cell.str "one")) "text" = Except.ok dfNull := by
  decide

/-- C2 amended: `contains` is a case-insensitive substring test, while
`starts_with` and `ends_with` are case-sensitive prefix and suffix tests
(patterns treated literally); each applies to the Python string form of the
cell, where a null cell is rendered as a string (object storage renders it
"None") and matches whenever that string passes the test, rather than never
matching. -/
theorem c2_text_operator_semantics (df : DataFrame) (cn : String) (v : FilterValue)
    (dt : String) (i : Nat) (h : colIndex df cn = some i) :
    (singleFilterMask df cn "contains" v dt =
      Except.ok (df.rows.map (fun r => pyContainsCI (pyStrCell (rowCell r i)) (pyStrValue v))))
    ∧ (singleFilterMask df cn "starts_with" v dt =
      Except.ok (df.rows.map (fun r => pyStartsWith (pyStrCell (rowCell r i)) (pyStrValue v))))
    ∧ (singleFilterMask df cn "ends_with" v dt =
      Except.ok (df.rows.map (fun r => pyEndsWith (pyStrCell (rowCell r i)) (pyStrValue v))))
    ∧ (∀ hay pat, pyContainsCI hay pat = true ↔ SpecContainsCI hay pat)
    ∧ (∀ hay pat, pyStartsWith hay pat = true ↔ SpecStartsWith hay pat)
    ∧ (∀ hay pat, pyEndsWith hay pat = true ↔ SpecEndsWith hay pat) := by
  refine ⟨?_, ?_, ?_, pyContainsCI_iff, pyStartsWith_iff, pyEndsWith_iff⟩ <;>
    simp [singleFilterMask, h, List.map_map, Function.comp]

/-- C2 witness: the amended mask equations instantiated on the 5-row table
at the City column. -/
theorem c2_text_operator_semantics_witness :
    colIndex df5 "City" = some 4
    ∧ singleFilterMask df5 "City" "contains" (FilterValue.scalar (Cell.str "TOK")) "text" =
      Except.ok (df5.rows.map (fun r =>
        pyContainsCI (pyStrCell (rowCell r 4)) (pyStrValue (FilterValue.scalar (Cell.str "TOK"))))) :=
  ⟨by decide,
   (c2_text_operator_semantics df5 "City" (FilterValue.scalar (Cell.str "TOK"))
     "text" 4 (by decide)).1⟩

/-- C5 counterexample: the inclusive range [1500, 2500] on Amount keeps 2
rows, but they are Bob (2000.0) and Charlie (1500.75); Eve (2500.5) lies
outside the range and is not retained, contrary to the claimed row set
(Charlie, Eve). -/
theorem c5_between_scenario_counterexample :
    apply_single_filter df5 "Amount" "between"
        (FilterValue.vtuple (Cell.num 1500) (Cell.num 2500)) "numeric" =
      Except.ok { columns := df5.columns, rows := [rowBob, rowCharlie] }
    ∧ rowEve ∉ [rowBob, rowCharlie]
    ∧ ¬ (1500 ≤ q2500p5 ∧ q2500p5 ≤ 2500) := by
  decide

/-- C5 amended: the `between` (1500, 2500) scenario on the 5-row table
retains exactly 2 rows, namely Bob (Amount 2000.0) and Charlie (Amount
1500.75), under the inclusive semantics min <= cell <= max. -/
theorem c5_between_scenario_amended :
    apply_single_filter df5 "Amount" "between"
        (FilterValue.vtuple (Cell.num 1500) (Cell.num 2500)) "numeric" =
      Except.ok { columns := df5.columns, rows := [rowBob, rowCharlie] }
    ∧ ({ columns := df5.columns, rows := [rowBob, rowCharlie] } : DataFrame).rows.length = 2 := by
  decide

/-- C6 counterexample: with a set value containing a null marker, a null
cell DOES match (`Series.isin` treats the NA markers as equal), so the row
is kept, contrary to the claim that a null cell never matches. -/
theorem c6_equals_null_in_set_counterexample :
    apply_single_filter dfNull "A" "equals"
        (FilterValue.vlist [Cell.null]) "text" = Except.ok dfNull
    ∧ dfNull.rows.length = 1 := by
  decide

/-- C6 amended: `equals` with a set keeps exactly the rows whose cell is a
member of the set, where a null cell matches exactly when the set contains
a null marker (and never matches an all-non-null set); `equals` with a
scalar is exact equality, and a null cell never matches any scalar target,
null or not. -/
theorem c6_equals_semantics (df : DataFrame) (cn : String) (S : List Cell)
    (v : Cell) (dt : String) (i : Nat) (h : colIndex df cn = some i) :
    (singleFilterMask df cn "equals" (FilterValue.vlist S) dt =
      Except.ok (df.rows.map (fun r => isinMatch (rowCell r i) S)))
    ∧ (∀ c, isinMatch c S = true ↔ c ∈ S)
    ∧ (Cell.null ∉ S → isinMatch Cell.null S = false)
    ∧ (singleFilterMask df cn "equals" (FilterValue.scalar v) dt =
      Except.ok (df.rows.map (fun r => cellEqB (rowCell r i) v)))
    ∧ (∀ c, cellEqB c v = true ↔ (c = v ∧ c ≠ Cell.null))
    ∧ cellEqB Cell.null v = false := by
  refine ⟨?_, fun c => isinMatch_iff c S, ?_, ?_, fun c => cellEqB_eq_true_iff c v, ?_⟩
  · simp [singleFilterMask, h, List.map_map, Function.comp]
  · intro hns
    cases hm : isinMatch Cell.null S with
    | false => rfl
    | true => exact absurd ((isinMatch_iff Cell.null S).mp hm) hns
  · simp [singleFilterMask, h, List.map_map, Function.comp]
  · cases v <;> rfl

/-- C6 witness: the amended semantics instantiated on the 5-row table at
the Age column with the set {25, 30}. -/
theorem c6_equals_semantics_witness :
    colIndex df5 "Age" = some 1
    ∧ singleFilterMask df5 "Age" "equals"
        (FilterValue.vlist [Cell.num 25, Cell.num 30]) "numeric" =
      Except.ok (df5.rows.map (fun r => isinMatch (rowCell r 1) [Cell.num 25, Cell.num 30])) :=
  ⟨by decide,
   (c6_equals_semantics df5 "Age" [Cell.num 25, Cell.num 30] (Cell.num 25)
     "numeric" 1 (by decide)).1⟩

/-- C9 counterexample: an int64 column of date-like numbers. Every sample
string form ("20240101", "20240102") parses as a date and the storage is
not a datetime dtype, so the claimed algorithm (date sampling before the
numeric check, for every column) infers date; the code only date-samples
object-typed columns and infers numeric here. -/
theorem c9_numeric_storage_skips_date_sampling :
    detect_column_type intDateLikeCol = "numeric"
    ∧ (((intDateLikeCol.values.filter (fun c => c ≠ Cell.null)).take 10).map pyStrCell).all
        parsesAsDate = true
    ∧ (intDateLikeCol.values.filter (fun c => c ≠ Cell.null)).length ≠ 0
    ∧ is_datetime64_any_dtype intDateLikeCol.dtype = false
    ∧ specInferType intDateLikeCol = "date" := by
  decide

/-- C9 amended: type inference is: all-null column infers text; datetime
storage infers date; a string-typed (object storage) column infers date
when its first up-to-10 non-null sample strings all parse as dates and
text otherwise (never numeric); a numerically stored column infers numeric
without any date sampling; anything else infers text. The function is a
pure function of the column. -/
theorem c9_detect_column_type_amended :
    ∀ col : PColumn, detect_column_type col = specInferAmended col := by
  intro col
  obtain ⟨dt, vals⟩ := col
  by_cases h0 : ((List.filter (fun c => c ≠ Cell.null) vals)).length = 0
  · simp only [detect_column_type, specInferAmended]
    rw [if_pos h0, if_pos h0]
  · simp only [detect_column_type, specInferAmended]
    rw [if_neg h0, if_neg h0]
    cases dt <;> rfl

/-- C1: the code raises the min > max error and surfaces it, but the
condition IS recorded: `apply_column_filter` updates the stored filter set
in place before evaluation, so the exception handler returns the mutated
set containing the invalid condition — and the add path
(`add_filter_condition`) performs no min/max validation at all and records
the condition silently. This theorem evaluates both paths at the failing
input (between on Amount with endpoints 2500 and 1500 over the empty
filter set). -/
theorem c1_min_gt_max_condition_recorded :
    (apply_column_filter df5 ct5 emptyFS "Amount" "between"
        (FilterValue.vtuple (Cell.str "2500") (Cell.str "1500")) (some "AND")).errorMsg =
      some ("Error applying filter: " ++ betweenErrMsg (Cell.num 2500) (Cell.num 1500))
    ∧ (apply_column_filter df5 ct5 emptyFS "Amount" "between"
        (FilterValue.vtuple (Cell.str "2500") (Cell.str "1500")) (some "AND")).filter_set =
      { conditions := [badBetweenCond], logic_operator := "AND" }
    ∧ emptyFS.conditions = []
    ∧ add_filter_condition emptyFS badBetweenCond =
      { conditions := [badBetweenCond], logic_operator := "AND" } := by
  decide

/-- C3: the cap is enforced when adding through `add_filter_condition`
(rejected, previous 10 kept) and inside evaluation (refused), but the
invariant "no reachable Filter Set exceeds 10 conditions" is broken by the
apply path: `apply_column_filter` installs the new condition into the
stored set before evaluation raises the capacity error, so the store
receives an 11-condition set while the user sees the error message. -/
theorem c3_capacity_leak_on_apply_path :
    (apply_column_filter df5 ct5 fullFS "Amount" "equals"
        (FilterValue.scalar (Cell.str "2000")) (some "AND")).filter_set.conditions.length = 11
    ∧ (apply_column_filter df5 ct5 fullFS "Amount" "equals"
        (FilterValue.scalar (Cell.str "2000")) (some "AND")).errorMsg =
      some "Error applying filter: Maximum 10 filter conditions allowed"
    ∧ fullFS.conditions.length = 10
    ∧ add_filter_condition fullFS (numberedCond 10) = fullFS
    ∧ apply_multiple_filters df5 elevenConds "AND" =
        Except.error "Maximum 10 filter conditions allowed" := by
  decide

end TableFilter
